import Mathlib

/-!
Verification of the client-side HTTP request abstraction of
`apps/frontend/lib/api.ts` (the Request Client of the spec).

The file shallowly embeds the TypeScript source:

* JSON values decoded by `response.json()` are the inductive `Json`
  (numbers are modelled as integers; the claims under study never
  depend on fractional values).
* JavaScript truthiness, `String(...)` coercion and `JSON.stringify`
  are embedded as `jsTruthy`, `jsToString` and `jsonStringify`.
* The `fetch` call itself is an external collaborator; its outcome is
  the inductive `FetchOutcome`: either an HTTP response (status plus a
  body that decodes to JSON or fails with a parse-error message) or a
  transport failure carrying the thrown value.
* `apiRequest` maps a `FetchOutcome` to the observable result of the
  source function `apiRequest` (a resolved JSON value or a raised
  `ApiError`), with the `try`/`catch` structure made explicit by
  `tryBody` and `catchHandler`.
* The request-construction half (headers merge via object spread and
  the five convenience wrappers) is embedded by `buildConfig`, `get`,
  `post`, `put`, `patch`, `del` over `RequestInit` records.
-/

namespace Api

/-- Decoded JSON values, as produced by `response.json()` in the source.
Numbers are modelled as integers; objects keep their textual field order. -/
inductive Json where
  | null : Json
  | bool (b : Bool) : Json
  | num (n : Int) : Json
  | str (s : String) : Json
  | arr (xs : List Json) : Json
  | obj (fields : List (String × Json)) : Json

/-- JavaScript truthiness of a decoded JSON value: `null`, `false`, `0`
and `""` are falsy, every array and object is truthy. Used by the
source expressions `errorData.detail || ...` and `data ? ... : undefined`. -/
def jsTruthy : Json → Bool
  | .null => false
  | .bool b => b
  | .num n => n != 0
  | .str s => s != ""
  | .arr _ => true
  | .obj _ => true

/-- Message of the `TypeError` JavaScript raises on property access of
`null`. The exact text is engine-dependent; it is modelled as one fixed
string mentioning the accessed key. -/
def typeErrorNullMessage (k : String) : String :=
  s!"Cannot read properties of null (reading {k})"

/-- JavaScript property access `v.k` on a decoded JSON value: a
`TypeError` (`.error`) when the base is `null`, else `.ok`: `some` the
value of field `k` when `v` is an object carrying it (the last binding
wins, as in `JSON.parse`), `none` (undefined) for a missing field or a
primitive base, which JavaScript boxes instead of throwing. -/
def jsGetField : Json → String → Except String (Option Json)
  | .null, k => .error (typeErrorNullMessage k)
  | .obj fields, k => .ok (fields.foldl (fun acc p => if p.1 == k then some p.2 else acc) none)
  | _, _ => .ok none

mutual

/-- JavaScript `String(...)` coercion applied to an element of an array
inside `Array.prototype.join`: `null` becomes the empty string there. -/
def jsToStringElem : Json → String
  | .null => ""
  | .bool b => if b then "true" else "false"
  | .num n => toString n
  | .str s => s
  | .arr xs => jsToStringElems xs
  | .obj _ => "[object Object]"

/-- `Array.prototype.toString`: elements joined with commas. -/
def jsToStringElems : List Json → String
  | [] => ""
  | [x] => jsToStringElem x
  | x :: xs => jsToStringElem x ++ "," ++ jsToStringElems xs

end

/-- JavaScript `String(...)` coercion of a decoded JSON value, as the
`Error` constructor applies to its `message` argument. -/
def jsToString : Json → String
  | .null => "null"
  | .bool b => if b then "true" else "false"
  | .num n => toString n
  | .str s => s
  | .arr xs => jsToStringElems xs
  | .obj _ => "[object Object]"

/-- Hexadecimal digit, lowercase, for `JSON.stringify` control escapes. -/
def hexDigit (n : Nat) : String :=
  if n < 10 then toString n else String.singleton (Char.ofNat (87 + n))

/-- Four-digit hexadecimal rendering of a code point below `0x10000`. -/
def hex4 (n : Nat) : String :=
  hexDigit (n / 4096 % 16) ++ hexDigit (n / 256 % 16) ++ hexDigit (n / 16 % 16) ++ hexDigit (n % 16)

/-- `JSON.stringify` escaping of one character inside a string literal. -/
def escapeChar (c : Char) : String :=
  if c == '"' then "\\\""
  else if c == '\\' then "\\\\"
  else if c == '\n' then "\\n"
  else if c == '\r' then "\\r"
  else if c == '\t' then "\\t"
  else if c == '\x08' then "\\b"
  else if c == '\x0c' then "\\f"
  else if c.toNat < 32 then "\\u" ++ hex4 c.toNat
  else String.singleton c

/-- `JSON.stringify` rendering of a string, quotes and escapes included. -/
def quoteString (s : String) : String :=
  "\"" ++ String.join (s.data.map escapeChar) ++ "\""

mutual

/-- `JSON.stringify` on a decoded JSON value, as the source wrappers
`post`/`put`/`patch` apply to their `data` argument. -/
def jsonStringify : Json → String
  | .null => "null"
  | .bool b => if b then "true" else "false"
  | .num n => toString n
  | .str s => quoteString s
  | .arr xs => "[" ++ stringifyElems xs ++ "]"
  | .obj fs => "\x7b" ++ stringifyFields fs ++ "\x7d"

/-- Comma-separated `JSON.stringify` of array elements. -/
def stringifyElems : List Json → String
  | [] => ""
  | [x] => jsonStringify x
  | x :: xs => jsonStringify x ++ "," ++ stringifyElems xs

/-- Comma-separated `JSON.stringify` of object fields. -/
def stringifyFields : List (String × Json) → String
  | [] => ""
  | [(k, v)] => quoteString k ++ ":" ++ jsonStringify v
  | (k, v) :: fs => quoteString k ++ ":" ++ jsonStringify v ++ "," ++ stringifyFields fs

end

/-- The `ApiError` class of the source: `message` (after the `Error`
constructor's string coercion), the HTTP `status`, and the optional
decoded `data` payload (absent when the constructor is called without
its third argument). -/
structure ApiError where
  message : String
  status : Nat
  data : Option Json := none

/-- Outcome of `response.json()`: the decoded value, or a rejection
carrying the parse error's message (a `SyntaxError` in JavaScript). -/
inductive BodyDecode where
  | ok (v : Json)
  | fail (errMsg : String)

/-- A value thrown by the transport layer (`fetch` itself): either an
`Error` instance with its `message`, or some non-`Error` value. `fetch`
never throws the client's own `ApiError`. -/
inductive TransportThrown where
  | error (message : String)
  | nonError

/-- Everything the client cannot influence about one call: either an
HTTP response arrived (status plus body-decode outcome), or the
transport failed before any response. -/
inductive FetchOutcome where
  | response (status : Nat) (body : BodyDecode)
  | transportError (t : TransportThrown)

/-- A value thrown inside the `try` block of `apiRequest`: the client's
own `ApiError`, some other `Error` (transport or JSON parse failure),
or a non-`Error` value. -/
inductive Thrown where
  | apiError (e : ApiError)
  | jsError (message : String)
  | nonError

/-- Observable result of `apiRequest`: the promise resolves with a
decoded value or rejects with an `ApiError`. -/
inductive ApiResult where
  | ok (value : Json)
  | err (e : ApiError)

/-- Source line `const errorData = await response.json().catch(() => (\x7b\x7d))`:
the decoded body, or an empty object when decoding fails. -/
def errorBody : BodyDecode → Json
  | .ok v => v
  | .fail _ => Json.obj []

/-- Source expression `errorData.detail || \x60API error: $\x7bresponse.status\x7d\x60`,
followed by the `Error` constructor's string coercion: the `detail`
field when present and truthy, else the fallback string. When
`errorData` decodes to JSON `null` the property access itself throws a
`TypeError` (`.error`), before any message is produced. -/
def errorMessage (status : Nat) (errorData : Json) : Except String String :=
  match jsGetField errorData "detail" with
  | .error m => .error m
  | .ok (some d) => .ok (if jsTruthy d then jsToString d else s!"API error: {status}")
  | .ok none => .ok s!"API error: {status}"

/-- Lift of a value thrown by `fetch` into the `try` block's thrown
values (a transport `Error` is just an `Error`, never an `ApiError`). -/
def liftTransport : TransportThrown → Thrown
  | .error m => .jsError m
  | .nonError => .nonError

/-- The `try` block of `apiRequest`: await `fetch`; if
`!response.ok` (status outside `[200,299]`) throw an `ApiError` built
from the diagnostic body — unless the `errorData.detail` access itself
throws a `TypeError` (decoded body `null`), which escapes before the
`ApiError` is constructed; if status is `204` resolve with `\x7b\x7d`;
otherwise resolve with the decoded body, whose parse failure rejects
with the parse error. -/
def tryBody : FetchOutcome → Except Thrown Json
  | .transportError t => .error (liftTransport t)
  | .response status body =>
    if ¬(200 ≤ status ∧ status ≤ 299) then
      match errorMessage status (errorBody body) with
      | .error m => .error (.jsError m)
      | .ok msg => .error (.apiError ⟨msg, status, some (errorBody body)⟩)
    else if status = 204 then
      .ok (Json.obj [])
    else
      match body with
      | .ok v => .ok v
      | .fail m => .error (.jsError m)

/-- The `catch` clause of `apiRequest`: an `ApiError` is re-thrown
unchanged; any other `Error` becomes `ApiError(message, 0)` with no
payload; a non-`Error` becomes `ApiError("Unknown error occurred", 0)`. -/
def catchHandler : Thrown → ApiResult
  | .apiError e => .err e
  | .jsError m => .err ⟨m, 0, none⟩
  | .nonError => .err ⟨"Unknown error occurred", 0, none⟩

/-- Observable behaviour of the source function `apiRequest` as a
function of the fetch outcome: the `try` block's result, filtered
through the `catch` clause. -/
def apiRequest (outcome : FetchOutcome) : ApiResult :=
  match tryBody outcome with
  | .ok v => .ok v
  | .error t => catchHandler t

/-- The `RequestInit` options record, restricted to the fields the
source reads or writes: `method`, `headers` (a plain string-keyed
object, embedded as an ordered association list with JavaScript's
case-sensitive keys) and `body`. Absent fields are `none`. -/
structure RequestInit where
  method : Option String := none
  headers : List (String × String) := []
  body : Option String := none

/-- JavaScript object-spread update of one key: an existing entry with
the identical (case-sensitive) key is overwritten in place, otherwise
the new entry is appended. -/
def objSet (l : List (String × String)) (k v : String) : List (String × String) :=
  if l.any (fun p => p.1 == k) then l.map (fun p => if p.1 == k then (k, v) else p)
  else l ++ [(k, v)]

/-- JavaScript object spread `\x7b...base, ...add\x7d` on string-keyed
records: entries of `add` are written over `base` left to right. -/
def objSpread (base add : List (String × String)) : List (String × String) :=
  add.foldl (fun acc p => objSet acc p.1 p.2) base

/-- Value a JavaScript object read yields on a string-keyed record at a
key: the last entry with that exact key, `none` when absent. -/
def headerLookup (l : List (String × String)) (k : String) : Option String :=
  l.foldl (fun acc p => if p.1 == k then some p.2 else acc) none

/-- Source value `defaultHeaders = \x7b "Content-Type": "application/json" \x7d`. -/
def defaultHeaders : List (String × String) := [("Content-Type", "application/json")]

/-- Source block building `config`: the caller's options with
`headers: \x7b...defaultHeaders, ...options.headers\x7d`. This is the
record `apiRequest` hands to `fetch`, so its fields are the outgoing
request's method, headers and body. -/
def buildConfig (options : RequestInit) : RequestInit :=
  { options with headers := objSpread defaultHeaders options.headers }

/-- Endpoint Base: `process.env.NEXT_PUBLIC_API_URL` with its local
default, as resolved when the environment variable is unset. -/
def API_BASE_URL : String := "http://localhost:8000"

/-- Source line building the URL: base concatenated with the endpoint. -/
def requestUrl (endpoint : String) : String := API_BASE_URL ++ endpoint

/-- Source expression `data ? JSON.stringify(data) : undefined` shared
by `post`, `put` and `patch` (`none` models an omitted `data`). -/
def jsonBody : Option Json → Option String
  | none => none
  | some v => if jsTruthy v then some (jsonStringify v) else none

/-- Wrapper `get`: the options it passes to `apiRequest`,
`\x7b...options, method: "GET"\x7d`. -/
def get (options : RequestInit) : RequestInit :=
  { options with method := some "GET" }

/-- Wrapper `post`: `\x7b...options, method: "POST", body: data ? JSON.stringify(data) : undefined\x7d`. -/
def post (data : Option Json) (options : RequestInit) : RequestInit :=
  { options with method := some "POST", body := jsonBody data }

/-- Wrapper `put`: as `post` with method `"PUT"`. -/
def put (data : Option Json) (options : RequestInit) : RequestInit :=
  { options with method := some "PUT", body := jsonBody data }

/-- Wrapper `patch`: as `post` with method `"PATCH"`. -/
def patch (data : Option Json) (options : RequestInit) : RequestInit :=
  { options with method := some "PATCH", body := jsonBody data }

/-- Wrapper `del`: `\x7b...options, method: "DELETE"\x7d`. -/
def del (options : RequestInit) : RequestInit :=
  { options with method := some "DELETE" }

/-- An entry of the base object survives a spread whose added record
never (case-sensitively) uses its key. -/
lemma mem_objSpread_of_forall_ne (add : List (String × String)) :
    ∀ (base : List (String × String)) (k v : String),
    (k, v) ∈ base → (∀ p ∈ add, p.1 ≠ k) → (k, v) ∈ objSpread base add := by
  induction add with
  | nil => intro base k v hmem _; exact hmem
  | cons q rest ih =>
    intro base k v hmem hne
    have hq : q.1 ≠ k := hne q (List.mem_cons_self q rest)
    have hmem2 : (k, v) ∈ objSet base q.1 q.2 := by
      unfold objSet
      by_cases hany : base.any (fun p => p.1 == q.1)
      · simp only [hany, if_true]
        refine List.mem_map.mpr ⟨(k, v), hmem, ?_⟩
        have : ((k, v).1 == q.1) = false := by
          simp only [beq_eq_false_iff_ne]
          exact fun h => hq h.symm
        simp [this]
      · simp only [hany, if_false]
        exact List.mem_append_left _ hmem
    exact ih (objSet base q.1 q.2) k v hmem2 (fun p hp => hne p (List.mem_cons_of_mem q hp))

/-- Spreading a record always leaves the written entry in the result:
an existing entry with the same key is overwritten in place, otherwise
the entry is appended. -/
lemma mem_objSet_self (l : List (String × String)) (k v : String) :
    (k, v) ∈ objSet l k v := by
  unfold objSet
  by_cases hany : l.any (fun p => p.1 == k) = true
  · rw [if_pos hany]
    rcases List.any_eq_true.mp hany with ⟨p, hp, hpk⟩
    refine List.mem_map.mpr ⟨p, hp, ?_⟩
    simp [hpk]
  · rw [if_neg hany]
    exact List.mem_append_right _ (List.mem_singleton.mpr rfl)

/-- Folding a last-wins lookup over a record whose `k`-entries were all
overwritten with `(k, v)` yields `v`, as soon as some `k`-entry existed
or the accumulator already held `v`. -/
lemma headerFold_map_set (k v : String) :
    ∀ (l : List (String × String)) (init : Option String),
    l.any (fun p => p.1 == k) = true ∨ init = some v →
    (l.map (fun p => if p.1 == k then (k, v) else p)).foldl
      (fun acc p => if p.1 == k then some p.2 else acc) init = some v := by
  intro l
  induction l with
  | nil =>
    intro init h
    rcases h with h | h
    · simp at h
    · simpa using h
  | cons q rest ih =>
    intro init h
    by_cases hq : (q.1 == k) = true
    · simp only [List.map_cons, List.foldl_cons, if_pos hq]
      refine ih _ (Or.inr ?_)
      simp
    · simp only [List.map_cons, List.foldl_cons, if_neg hq]
      refine ih init ?_
      rcases h with h | h
      · simp only [List.any_cons, Bool.or_eq_true] at h
        rcases h with h | h
        · exact absurd h hq
        · exact Or.inl h
      · exact Or.inr h

/-- After writing key `k` into a record, the last-wins lookup at `k`
yields exactly the written value. -/
lemma headerLookup_objSet_self (l : List (String × String)) (k v : String) :
    headerLookup (objSet l k v) k = some v := by
  unfold headerLookup objSet
  by_cases hany : l.any (fun p => p.1 == k) = true
  · rw [if_pos hany]
    exact headerFold_map_set k v l none (Or.inl hany)
  · rw [if_neg hany]
    rw [List.foldl_append]
    simp

/-- Overwriting the entries of a different key `kq` does not change the
last-wins fold at key `k`. -/
lemma headerFold_map_other (kq vq k : String) (hk : (kq == k) = false) :
    ∀ (l : List (String × String)) (init : Option String),
    (l.map (fun p => if p.1 == kq then (kq, vq) else p)).foldl
      (fun acc p => if p.1 == k then some p.2 else acc) init =
    l.foldl (fun acc p => if p.1 == k then some p.2 else acc) init := by
  intro l
  induction l with
  | nil => intro init; rfl
  | cons q rest ih =>
    intro init
    by_cases hq : (q.1 == kq) = true
    · simp only [List.map_cons, List.foldl_cons, if_pos hq]
      have hq1 : (q.1 == k) = false := by
        have hqe : q.1 = kq := by simpa using hq
        rw [hqe]; exact hk
      rw [if_neg (by simp [hk]), if_neg (by simp [hq1])]
      exact ih init
    · simp only [List.map_cons, List.foldl_cons, if_neg hq]
      exact ih _

/-- Spreading a record none of whose keys is `k` does not change the
lookup at `k`. -/
lemma headerLookup_objSpread_other (k : String) :
    ∀ (add base : List (String × String)),
    (∀ p ∈ add, (p.1 == k) = false) →
    headerLookup (objSpread base add) k = headerLookup base k := by
  intro add
  induction add with
  | nil => intro base _; rfl
  | cons q rest ih =>
    intro base hne
    have hq : (q.1 == k) = false := hne q (List.mem_cons_self q rest)
    have step1 : headerLookup (objSet base q.1 q.2) k = headerLookup base k := by
      unfold headerLookup objSet
      by_cases hany : base.any (fun p => p.1 == q.1) = true
      · rw [if_pos hany]
        exact headerFold_map_other q.1 q.2 k hq base none
      · rw [if_neg hany, List.foldl_append]
        simp only [List.foldl_cons, List.foldl_nil]
        rw [if_neg (by simp [hq])]
    have hspread : objSpread base (q :: rest) = objSpread (objSet base q.1 q.2) rest := rfl
    rw [hspread, ih (objSet base q.1 q.2) (fun p hp => hne p (List.mem_cons_of_mem q hp)), step1]

/-- Spreading a concatenation is spreading the parts in order. -/
lemma objSpread_append (base l1 l2 : List (String × String)) :
    objSpread base (l1 ++ l2) = objSpread (objSpread base l1) l2 :=
  List.foldl_append _ _ _ _

/-- The `errorData.detail` access succeeds on every decoded body other
than JSON `null`, so the fallback-or-detail message is produced. -/
lemma errorMessage_ok_of_ne_null (status : Nat) (v : Json) (hv : v ≠ Json.null) :
    ∃ msg, errorMessage status v = .ok msg := by
  cases v with
  | null => exact absurd rfl hv
  | bool b => exact ⟨_, rfl⟩
  | num n => exact ⟨_, rfl⟩
  | str s => exact ⟨_, rfl⟩
  | arr xs => exact ⟨_, rfl⟩
  | obj fields =>
    have hget : jsGetField (Json.obj fields) "detail" =
        .ok (fields.foldl (fun acc p => if p.1 == "detail" then some p.2 else acc) none) := rfl
    cases hfold : fields.foldl (fun acc p => if p.1 == "detail" then some p.2 else acc) none with
    | none =>
      refine ⟨s!"API error: {status}", ?_⟩
      unfold errorMessage
      rw [hget, hfold]
    | some d =>
      refine ⟨if jsTruthy d then jsToString d else s!"API error: {status}", ?_⟩
      unfold errorMessage
      rw [hget, hfold]

/-- C1: a response with status in `[200,299]`, other than `204`, whose
body decodes as the JSON value `v`, makes `apiRequest` resolve to
exactly `v`, unchanged. -/
theorem api_C1_success_roundtrip (status : Nat) (v : Json)
    (h1 : 200 ≤ status) (h2 : status ≤ 299) (h3 : status ≠ 204) :
    apiRequest (.response status (.ok v)) = .ok v := by
  simp [apiRequest, tryBody, h1, h2, h3]

/-- Witness for C1 at status `200` and body `"a"`. -/
theorem api_C1_success_roundtrip_witness :
    apiRequest (.response 200 (.ok (Json.str "a"))) = .ok (Json.str "a") :=
  api_C1_success_roundtrip 200 (Json.str "a") (by decide) (by decide) (by decide)

/-- C3: a transport failure before any response yields an `ApiError`
with status `0`, the thrown `Error` value's message (or the fallback
`"Unknown error occurred"` for a non-`Error` thrown value), and no
payload. -/
theorem api_C3_transport_failure (m : String) :
    apiRequest (.transportError (.error m)) = .err ⟨m, 0, none⟩ ∧
    apiRequest (.transportError .nonError) = .err ⟨"Unknown error occurred", 0, none⟩ :=
  ⟨rfl, rfl⟩

/-- C4: a 2xx (non-204) response whose body fails to decode as JSON is
raised as an `ApiError` with status `0` and no payload, identical to
what the same parse error raised by the transport layer produces. -/
theorem api_C4_decode_failure_as_transport (status : Nat) (m : String)
    (h1 : 200 ≤ status) (h2 : status ≤ 299) (h3 : status ≠ 204) :
    apiRequest (.response status (.fail m)) = .err ⟨m, 0, none⟩ ∧
    apiRequest (.response status (.fail m)) = apiRequest (.transportError (.error m)) := by
  constructor
  · simp [apiRequest, tryBody, h1, h2, h3, catchHandler]
  · simp [apiRequest, tryBody, h1, h2, h3, catchHandler, liftTransport]

/-- Witness for C4 at status `200` and parse message `"Unexpected token"`. -/
theorem api_C4_decode_failure_as_transport_witness :
    apiRequest (.response 200 (.fail "Unexpected token")) =
      .err ⟨"Unexpected token", 0, none⟩ ∧
    apiRequest (.response 200 (.fail "Unexpected token")) =
      apiRequest (.transportError (.error "Unexpected token")) :=
  api_C4_decode_failure_as_transport 200 "Unexpected token" (by decide) (by decide) (by decide)

/-- C5: a `204` response resolves to the empty object whatever the body
decode would have produced, body bytes included; the body is never
inspected. -/
theorem api_C5_no_content (body : BodyDecode) :
    apiRequest (.response 204 body) = .ok (Json.obj []) := rfl

/-- C9: each convenience wrapper forces its own HTTP method on the
outgoing request, even when the caller's options record already carries
a `method` field: the wrapper's method is written after the spread of
`options`, so it always wins, and `apiRequest` preserves it. -/
theorem api_C9_wrapper_method_wins (options : RequestInit) (data : Option Json) :
    (buildConfig (get options)).method = some "GET" ∧
    (buildConfig (post data options)).method = some "POST" ∧
    (buildConfig (put data options)).method = some "PUT" ∧
    (buildConfig (patch data options)).method = some "PATCH" ∧
    (buildConfig (del options)).method = some "DELETE" := by
  simp [buildConfig, get, post, put, patch, del]

/-- C10 counterexample: on a `500` response whose body is the valid
JSON text `null`, the `errorData.detail` access throws a `TypeError`
before the status-carrying `ApiError` is constructed; the outer catch
wraps that `TypeError` as a status-0 error with no payload, so this
non-2xx failure loses its real status code. -/
theorem api_C10_counterexample :
    apiRequest (.response 500 (.ok Json.null)) =
      .err ⟨typeErrorNullMessage "detail", 0, none⟩ ∧
    (ApiError.mk (typeErrorNullMessage "detail") 0 none).status ≠ 500 :=
  ⟨rfl, by decide⟩

/-- C10 (amended): the outer `catch` re-raises an `ApiError` unchanged
(never re-wrapping it into a status-0 error), so every error
`apiRequest` raises is an `ApiError`; a non-2xx failure keeps its real
HTTP status in the raised error whenever its decoded diagnostic body is
not JSON `null` (for a `null` body the `detail` access throws before
the status-carrying `ApiError` exists, and the failure is reported with
status `0`). -/
theorem api_C10_apierror_rethrown_unchanged :
    (∀ e : ApiError, catchHandler (.apiError e) = .err e) ∧
    (∀ (status : Nat) (body : BodyDecode), ¬(200 ≤ status ∧ status ≤ 299) →
      errorBody body ≠ Json.null →
      ∃ msg d, apiRequest (.response status body) = .err ⟨msg, status, some d⟩) := by
  constructor
  · intro e; rfl
  · intro status body h hb
    obtain ⟨msg, hmsg⟩ := errorMessage_ok_of_ne_null status (errorBody body) hb
    exact ⟨msg, errorBody body, by simp [apiRequest, tryBody, h, hmsg, catchHandler]⟩

/-- Witness for the amended C10 at a concrete `ApiError` and a `404`
response with a decodable non-`null` body. -/
theorem api_C10_apierror_rethrown_unchanged_witness :
    catchHandler (.apiError ⟨"m", 418, none⟩) = .err ⟨"m", 418, none⟩ ∧
    ∃ msg d, apiRequest (.response 404 (.ok (Json.obj [("detail", Json.str "Not found")]))) =
      .err ⟨msg, 404, some d⟩ :=
  ⟨api_C10_apierror_rethrown_unchanged.1 ⟨"m", 418, none⟩,
   api_C10_apierror_rethrown_unchanged.2 404
     (.ok (Json.obj [("detail", Json.str "Not found")])) (by decide)
     (fun hEq => Json.noConfusion hEq)⟩

/-- C2 counterexample: with body `«\x7b"detail": ""\x7d»` on a `500`
response, the `detail` field is present (with string value `""`), yet
the raised message is the fallback `"API error: 500"`, not `""`: the
source guards `detail` with JavaScript truthiness, not presence. -/
theorem api_C2_counterexample :
    apiRequest (.response 500 (.ok (Json.obj [("detail", Json.str "")]))) =
      .err ⟨"API error: 500", 500, some (Json.obj [("detail", Json.str "")])⟩ ∧
    jsGetField (Json.obj [("detail", Json.str "")]) "detail" = .ok (some (Json.str "")) ∧
    "API error: 500" ≠ "" :=
  ⟨rfl, rfl, by decide⟩

/-- C2 (amended): for a response with status outside `[200,299]` whose
decoded body is not JSON `null`, the raised error's status is the real
HTTP status and its payload is the decoded body (an empty object when
the body fails to decode); the message is the string value of the
`detail` field when that field is present AND truthy (not `null`,
`false`, `0` or `""`), and the fallback `"API error: <status>"`
otherwise, in particular whenever `detail` is absent or the body fails
to decode. When the body decodes to JSON `null`, the `detail` access
throws a `TypeError` before the error is constructed, and the call
instead fails with status `0`, the `TypeError` message, and no
payload. -/
theorem api_C2_http_error_amended (status : Nat) (v : Json) (m : String)
    (h : ¬(200 ≤ status ∧ status ≤ 299)) (hv : v ≠ Json.null) :
    (∃ msg, apiRequest (.response status (.ok v)) = .err ⟨msg, status, some v⟩ ∧
      errorMessage status v = .ok msg) ∧
    apiRequest (.response status (.fail m)) =
      .err ⟨s!"API error: {status}", status, some (Json.obj [])⟩ ∧
    (∀ d, jsGetField v "detail" = .ok (some d) → jsTruthy d = true →
      errorMessage status v = .ok (jsToString d)) ∧
    (jsGetField v "detail" = .ok none → errorMessage status v = .ok s!"API error: {status}") ∧
    apiRequest (.response status (.ok Json.null)) =
      .err ⟨typeErrorNullMessage "detail", 0, none⟩ := by
  refine ⟨?_, ?_, ?_, ?_, ?_⟩
  · obtain ⟨msg, hmsg⟩ := errorMessage_ok_of_ne_null status v hv
    exact ⟨msg, by simp [apiRequest, tryBody, h, errorBody, hmsg, catchHandler], hmsg⟩
  · simp [apiRequest, tryBody, h, catchHandler, errorBody, errorMessage, jsGetField]
  · intro d hd ht; simp [errorMessage, hd, ht]
  · intro hd; simp [errorMessage, hd]
  · simp [apiRequest, tryBody, h, catchHandler, errorBody, errorMessage, jsGetField]

/-- Witness for the amended C2 at a `404` with `«\x7b"detail": "Not found"\x7d»`,
at a `404` whose body fails to decode, and at a `404` whose body is the
JSON text `null`. -/
theorem api_C2_http_error_amended_witness :
    (∃ msg, apiRequest (.response 404 (.ok (Json.obj [("detail", Json.str "Not found")]))) =
      .err ⟨msg, 404, some (Json.obj [("detail", Json.str "Not found")])⟩ ∧
      errorMessage 404 (Json.obj [("detail", Json.str "Not found")]) = .ok msg) ∧
    apiRequest (.response 404 (.fail "x")) =
      .err ⟨"API error: 404", 404, some (Json.obj [])⟩ ∧
    errorMessage 404 (Json.obj [("detail", Json.str "Not found")]) = .ok "Not found" ∧
    apiRequest (.response 404 (.ok Json.null)) =
      .err ⟨typeErrorNullMessage "detail", 0, none⟩ := by
  have h := api_C2_http_error_amended 404
    (Json.obj [("detail", Json.str "Not found")]) "x" (by decide)
    (fun hEq => Json.noConfusion hEq)
  exact ⟨h.1, h.2.1, h.2.2.1 (Json.str "Not found") rfl rfl, h.2.2.2.2⟩

/-- C6 counterexample: `post` invoked with the provided (but falsy)
data value `0` sends no body at all, although `JSON.stringify(0)` is
`"0"`: the source guards `data` with JavaScript truthiness, not with
presence. -/
theorem api_C6_counterexample :
    (post (some (Json.num 0)) ⟨none, [], none⟩).body = none ∧
    jsonStringify (Json.num 0) = "0" ∧
    (post (some (Json.num 0)) ⟨none, [], none⟩).body ≠ some (jsonStringify (Json.num 0)) :=
  ⟨rfl, rfl, by decide⟩

/-- C6 (amended): `post`, `put` and `patch` send no body when `data` is
omitted; when `data` is provided and truthy the body is exactly the
JSON serialization of `data`; when `data` is provided but falsy
(`null`, `false`, `0` or `""`) no body is sent, as if it were omitted. -/
theorem api_C6_body_serialization_amended (v w : Json) (opts : RequestInit)
    (hv : jsTruthy v = true) (hw : jsTruthy w = false) :
    ((post none opts).body = none ∧ (put none opts).body = none ∧
     (patch none opts).body = none) ∧
    ((post (some v) opts).body = some (jsonStringify v) ∧
     (put (some v) opts).body = some (jsonStringify v) ∧
     (patch (some v) opts).body = some (jsonStringify v)) ∧
    ((post (some w) opts).body = none ∧ (put (some w) opts).body = none ∧
     (patch (some w) opts).body = none) := by
  simp [post, put, patch, jsonBody, hv, hw]

/-- Witness for the amended C6 at the truthy value `"a"` and the falsy
value `0`. -/
theorem api_C6_body_serialization_amended_witness :
    (((post none ⟨none, [], none⟩).body = none ∧ (put none ⟨none, [], none⟩).body = none ∧
      (patch none ⟨none, [], none⟩).body = none) ∧
     ((post (some (Json.str "a")) ⟨none, [], none⟩).body = some (jsonStringify (Json.str "a")) ∧
      (put (some (Json.str "a")) ⟨none, [], none⟩).body = some (jsonStringify (Json.str "a")) ∧
      (patch (some (Json.str "a")) ⟨none, [], none⟩).body = some (jsonStringify (Json.str "a"))) ∧
     ((post (some (Json.num 0)) ⟨none, [], none⟩).body = none ∧
      (put (some (Json.num 0)) ⟨none, [], none⟩).body = none ∧
      (patch (some (Json.num 0)) ⟨none, [], none⟩).body = none)) :=
  api_C6_body_serialization_amended (Json.str "a") (Json.num 0) ⟨none, [], none⟩ rfl rfl

/-- C7 counterexample: a caller header `content-type: text/plain`,
differing from the default key only in case, does not override the
default: the merged object keeps the `Content-Type: application/json`
entry alongside the caller's entry, so the caller's value did not win
the (case-insensitive) collision. -/
theorem api_C7_counterexample :
    (buildConfig ⟨some "GET", [("content-type", "text/plain")], none⟩).headers =
      [("Content-Type", "application/json"), ("content-type", "text/plain")] ∧
    ("Content-Type", "application/json") ∈
      (buildConfig ⟨some "GET", [("content-type", "text/plain")], none⟩).headers :=
  ⟨rfl, by decide⟩

/-- C7 (amended): the outgoing headers include
`Content-Type: application/json` unless the caller supplies a header
whose key matches `"Content-Type"` exactly (the object-spread merge is
case-sensitive); on an exact-key collision the caller's value replaces
the default (the merged object reads the caller's last value at the
key), while a caller header whose key differs — in particular only in
case — is kept as a separate entry alongside the default. Stated for
arbitrary caller header lists: `l1` and `l2` surround the relevant
caller entry, `hs` is any caller list without an exact
`"Content-Type"` key. -/
theorem api_C7_headers_amended (m b : Option String) (hs l1 l2 : List (String × String))
    (k v w : String) :
    ((∀ p ∈ hs, p.1 ≠ "Content-Type") →
      ("Content-Type", "application/json") ∈ (buildConfig ⟨m, hs, b⟩).headers) ∧
    ((∀ p ∈ l2, p.1 ≠ "Content-Type") →
      headerLookup (buildConfig ⟨m, l1 ++ ("Content-Type", v) :: l2, b⟩).headers
        "Content-Type" = some v) ∧
    ((∀ p ∈ l2, p.1 ≠ k) → k ≠ "Content-Type" →
      (∀ p ∈ l1 ++ (k, w) :: l2, p.1 ≠ "Content-Type") →
      (k, w) ∈ (buildConfig ⟨m, l1 ++ (k, w) :: l2, b⟩).headers ∧
      ("Content-Type", "application/json") ∈
        (buildConfig ⟨m, l1 ++ (k, w) :: l2, b⟩).headers) := by
  refine ⟨?_, ?_, ?_⟩
  · intro hno
    show ("Content-Type", "application/json") ∈ objSpread defaultHeaders hs
    exact mem_objSpread_of_forall_ne hs defaultHeaders "Content-Type" "application/json"
      (by simp [defaultHeaders]) hno
  · intro hno
    show headerLookup (objSpread defaultHeaders (l1 ++ ("Content-Type", v) :: l2))
      "Content-Type" = some v
    rw [show l1 ++ ("Content-Type", v) :: l2 = (l1 ++ [("Content-Type", v)]) ++ l2 by simp]
    rw [objSpread_append, objSpread_append]
    rw [headerLookup_objSpread_other "Content-Type" l2 _
      (fun p hp => beq_eq_false_iff_ne.mpr (hno p hp))]
    exact headerLookup_objSet_self (objSpread defaultHeaders l1) "Content-Type" v
  · intro hno2 hkCT hnoCT
    constructor
    · show (k, w) ∈ objSpread defaultHeaders (l1 ++ (k, w) :: l2)
      rw [show l1 ++ (k, w) :: l2 = (l1 ++ [(k, w)]) ++ l2 by simp]
      rw [objSpread_append, objSpread_append]
      exact mem_objSpread_of_forall_ne l2 _ k w
        (mem_objSet_self (objSpread defaultHeaders l1) k w) hno2
    · show ("Content-Type", "application/json") ∈ objSpread defaultHeaders (l1 ++ (k, w) :: l2)
      exact mem_objSpread_of_forall_ne _ defaultHeaders "Content-Type" "application/json"
        (by simp [defaultHeaders]) hnoCT

/-- Witness for the amended C7: the default survives a caller list
without the exact key; an exact `Content-Type` override amid other
headers wins the lookup; a lowercase `content-type` header amid other
headers is kept alongside the surviving default. -/
theorem api_C7_headers_amended_witness :
    ("Content-Type", "application/json") ∈
      (buildConfig ⟨some "GET", [("X-Custom", "1")], none⟩).headers ∧
    headerLookup (buildConfig ⟨some "GET",
      [("X-Custom", "1"), ("Content-Type", "text/plain"), ("X-Another", "2")],
      none⟩).headers "Content-Type" = some "text/plain" ∧
    (("content-type", "text/plain") ∈ (buildConfig ⟨some "GET",
      [("X-Custom", "1"), ("content-type", "text/plain"), ("X-Another", "2")], none⟩).headers ∧
     ("Content-Type", "application/json") ∈ (buildConfig ⟨some "GET",
      [("X-Custom", "1"), ("content-type", "text/plain"), ("X-Another", "2")], none⟩).headers) := by
  have h := api_C7_headers_amended (some "GET") none [("X-Custom", "1")]
    [("X-Custom", "1")] [("X-Another", "2")] "content-type" "text/plain" "text/plain"
  exact ⟨h.1 (by decide), h.2.1 (by decide), h.2.2 (by decide) (by decide) (by decide)⟩

/-- C8 counterexample: on a `500` response whose body fails to decode
as JSON, the raised error still carries a payload (the empty object),
so the payload is present even though no body was successfully
decoded. -/
theorem api_C8_counterexample :
    apiRequest (.response 500 (.fail "Unexpected token")) =
      .err ⟨"API error: 500", 500, some (Json.obj [])⟩ ∧
    (some (Json.obj [])).isSome = true :=
  ⟨rfl, rfl⟩

/-- C8 (amended): the raised error's payload is present exactly when an
HTTP response with a non-2xx status was received whose decoded
diagnostic body is not JSON `null` — the payload is then the decoded
body, or an empty object when decoding failed — while transport
failures, 2xx responses with undecodable bodies, and non-2xx responses
whose body decodes to JSON `null` (where the `detail` access throws a
`TypeError` first) raise errors with status `0` and no payload. -/
theorem api_C8_payload_presence_amended (status : Nat) (body : BodyDecode) (m : String)
    (h : ¬(200 ≤ status ∧ status ≤ 299)) (hb : errorBody body ≠ Json.null) :
    (∃ msg, apiRequest (.response status body) = .err ⟨msg, status, some (errorBody body)⟩) ∧
    apiRequest (.response status (.ok Json.null)) =
      .err ⟨typeErrorNullMessage "detail", 0, none⟩ ∧
    apiRequest (.transportError (.error m)) = .err ⟨m, 0, none⟩ ∧
    apiRequest (.transportError .nonError) = .err ⟨"Unknown error occurred", 0, none⟩ ∧
    (∀ s2, 200 ≤ s2 → s2 ≤ 299 → s2 ≠ 204 →
      apiRequest (.response s2 (.fail m)) = .err ⟨m, 0, none⟩) := by
  refine ⟨?_, ?_, rfl, rfl, ?_⟩
  · obtain ⟨msg, hmsg⟩ := errorMessage_ok_of_ne_null status (errorBody body) hb
    exact ⟨msg, by simp [apiRequest, tryBody, h, hmsg, catchHandler]⟩
  · simp [apiRequest, tryBody, h, errorBody, errorMessage, jsGetField, catchHandler]
  · intro s2 h1 h2 h3
    simp [apiRequest, tryBody, h1, h2, h3, catchHandler]

/-- Witness for the amended C8 at a `500` response with an undecodable
body, a `500` response with the JSON body `null`, a transport failure,
and a `200` response with an undecodable body. -/
theorem api_C8_payload_presence_amended_witness :
    (∃ msg, apiRequest (.response 500 (.fail "x")) =
      .err ⟨msg, 500, some (Json.obj [])⟩) ∧
    apiRequest (.response 500 (.ok Json.null)) =
      .err ⟨typeErrorNullMessage "detail", 0, none⟩ ∧
    apiRequest (.transportError (.error "x")) = .err ⟨"x", 0, none⟩ ∧
    apiRequest (.transportError .nonError) = .err ⟨"Unknown error occurred", 0, none⟩ ∧
    apiRequest (.response 200 (.fail "x")) = .err ⟨"x", 0, none⟩ := by
  have h := api_C8_payload_presence_amended 500 (.fail "x") "x" (by decide)
    (fun hEq => Json.noConfusion hEq)
  exact ⟨h.1, h.2.1, h.2.2.1, h.2.2.2.1, h.2.2.2.2 200 (by decide) (by decide) (by decide)⟩

end Api
